import Mathlib

/-!
Shallow embedding of the in-memory adaptive interview state machine of the
Hireability backend (`src/services/interview-state.service.ts`, plus the
phase-promotion logic of `src/services/interactive-vapi.service.ts`).

Modelling conventions:
- TypeScript `number` scores/durations become `Rat` (ℚ); timestamps
  (`Date`, milliseconds) become `Int`, passed explicitly as a `now` argument
  wherever the source calls `new Date()`.
- `uuidv4()` results are passed explicitly as fresh `String` arguments.
- The module-level `Map<string, InterviewState>` becomes an association list
  `StateStore`; each exported mutator becomes a pure function returning the
  produced value together with the updated store.
- Optional TS fields become `Option`; JS truthiness of `x || d` on numbers is
  modelled explicitly (`0` is falsy).
- Persistence timers, Prisma access and WebSocket emission are I/O side
  effects with no influence on the in-memory state transitions and are
  omitted.
-/

namespace Hireability

inductive RoundType where
  | BEHAVIORAL | TECHNICAL | CODING | SYSTEM_DESIGN | HR
  deriving DecidableEq, Repr

inductive Difficulty where
  | EASY | MEDIUM | HARD
  deriving DecidableEq, Repr

inductive QuestionCategory where
  | introduction | experience | behavioral | technical_concept
  | problem_solving | system_design | coding | culture_fit | closing
  deriving DecidableEq, Repr

inductive TopicDepth where
  | shallow | moderate | deep
  deriving DecidableEq, Repr

inductive ScoreTrend where
  | improving | stable | declining
  deriving DecidableEq, Repr

inductive ConfidenceLevel where
  | low | medium | high
  deriving DecidableEq, Repr

inductive InterviewPhase where
  | not_started | introduction | main_questions | deep_dive
  | coding_setup | coding_active | coding_review | wrap_up | completed
  deriving DecidableEq, Repr

/-- `QuestionState` from `interview-state.types.ts` (metadata omitted: it is
an opaque record never read by the state machine). -/
structure QuestionState where
  id : String
  question : String
  category : QuestionCategory
  difficulty : Difficulty
  askedAt : Int
  answeredAt : Option Int := none
  answer : Option String := none
  score : Option Rat := none
  feedback : Option String := none
  followUpAsked : Option Bool := none
  isFollowUp : Bool
  parentQuestionId : Option String := none
  timeSpentSeconds : Option Int := none
  deriving DecidableEq, Repr

structure TopicCoverage where
  category : QuestionCategory
  questionsAsked : Nat
  averageScore : Rat
  covered : Bool
  depth : TopicDepth
  deriving DecidableEq, Repr

/-- The `Record<QuestionCategory, TopicCoverage>` object, one field per
category, in the insertion order of `createDefaultTopicCoverage`. -/
structure TopicCoverageMap where
  introduction : TopicCoverage
  experience : TopicCoverage
  behavioral : TopicCoverage
  technical_concept : TopicCoverage
  problem_solving : TopicCoverage
  system_design : TopicCoverage
  coding : TopicCoverage
  culture_fit : TopicCoverage
  closing : TopicCoverage
  deriving DecidableEq, Repr

/-- `Object.entries` order over the nine categories. -/
def allCategories : List QuestionCategory :=
  [.introduction, .experience, .behavioral, .technical_concept,
   .problem_solving, .system_design, .coding, .culture_fit, .closing]

def TopicCoverageMap.get (m : TopicCoverageMap) : QuestionCategory → TopicCoverage
  | .introduction => m.introduction
  | .experience => m.experience
  | .behavioral => m.behavioral
  | .technical_concept => m.technical_concept
  | .problem_solving => m.problem_solving
  | .system_design => m.system_design
  | .coding => m.coding
  | .culture_fit => m.culture_fit
  | .closing => m.closing

def TopicCoverageMap.set (m : TopicCoverageMap) (c : QuestionCategory) (t : TopicCoverage) :
    TopicCoverageMap :=
  match c with
  | .introduction => { m with introduction := t }
  | .experience => { m with experience := t }
  | .behavioral => { m with behavioral := t }
  | .technical_concept => { m with technical_concept := t }
  | .problem_solving => { m with problem_solving := t }
  | .system_design => { m with system_design := t }
  | .coding => { m with coding := t }
  | .culture_fit => { m with culture_fit := t }
  | .closing => { m with closing := t }

structure PerformanceMetrics where
  totalQuestions : Nat
  answeredQuestions : Nat
  averageScore : Rat
  recentScores : List Rat
  scoreTrend : ScoreTrend
  strongAreas : List QuestionCategory
  weakAreas : List QuestionCategory
  suggestedDifficulty : Difficulty
  confidenceLevel : ConfidenceLevel
  deriving DecidableEq, Repr

structure TestCaseResult where
  input : String
  expectedOutput : String
  actualOutput : String
  passed : Bool
  executionTimeMs : Option Rat := none
  deriving DecidableEq, Repr

structure CodeExecutionResult where
  success : Bool
  output : Option String := none
  error : Option String := none
  testResults : Option (List TestCaseResult) := none
  executionTimeMs : Option Rat := none
  memoryUsedKb : Option Rat := none
  deriving DecidableEq, Repr

structure CodeSubmission where
  id : String
  code : String
  language : String
  submittedAt : Int
  result : CodeExecutionResult
  deriving DecidableEq, Repr

structure CodingState where
  problemId : String
  problemTitle : String
  problemDescription : String
  difficulty : Difficulty
  language : String
  currentCode : String
  starterCode : String
  hintsUsed : Nat
  hintsAvailable : List String
  testCasesPassed : Nat
  totalTestCases : Nat
  lastExecutionResult : Option CodeExecutionResult := none
  submissions : List CodeSubmission
  startedAt : Int
  timeSpentSeconds : Int
  deriving DecidableEq, Repr

/-- The five expression keys `updateConfidenceLevel` reads out of the
`averageExpressions : Record<string, number>` bag (other keys are never
read). -/
structure ExpressionAverages where
  happy : Option Rat := none
  neutral : Option Rat := none
  fearful : Option Rat := none
  sad : Option Rat := none
  angry : Option Rat := none
  deriving DecidableEq, Repr

structure CandidateSignals where
  currentExpression : Option String := none
  expressionConfidence : Option Rat := none
  averageExpressions : Option ExpressionAverages := none
  currentPauseSeconds : Option Rat := none
  longPauseDetected : Option Bool := none
  isTyping : Option Bool := none
  lastCodeUpdate : Option Int := none
  codeLength : Option Nat := none
  deriving DecidableEq, Repr

structure InterviewState where
  id : String
  interviewId : String
  userId : String
  sessionId : Option String := none
  roundType : RoundType
  roundOrder : Nat
  startedAt : Int
  lastActivityAt : Int
  estimatedDurationMinutes : Rat
  elapsedSeconds : Int
  targetRole : Option String := none
  targetCompany : Option String := none
  experienceLevel : Option String := none
  resumeContext : Option String := none
  questions : List QuestionState
  currentQuestionIndex : Int
  topicCoverage : TopicCoverageMap
  performance : PerformanceMetrics
  codingState : Option CodingState := none
  phase : InterviewPhase
  canProceedToNext : Bool
  shouldWrapUp : Bool
  candidateSignals : CandidateSignals
  createdAt : Int
  updatedAt : Int
  persistedAt : Option Int := none
  deriving DecidableEq, Repr

def defaultTopic (c : QuestionCategory) : TopicCoverage :=
  { category := c, questionsAsked := 0, averageScore := 0, covered := false,
    depth := .shallow }

def createDefaultTopicCoverage : TopicCoverageMap :=
  { introduction := defaultTopic .introduction
    experience := defaultTopic .experience
    behavioral := defaultTopic .behavioral
    technical_concept := defaultTopic .technical_concept
    problem_solving := defaultTopic .problem_solving
    system_design := defaultTopic .system_design
    coding := defaultTopic .coding
    culture_fit := defaultTopic .culture_fit
    closing := defaultTopic .closing }

def createDefaultPerformance : PerformanceMetrics :=
  { totalQuestions := 0, answeredQuestions := 0, averageScore := 0,
    recentScores := [], scoreTrend := .stable, strongAreas := [],
    weakAreas := [], suggestedDifficulty := .MEDIUM,
    confidenceLevel := .medium }

def getDefaultDuration : RoundType → Rat
  | .BEHAVIORAL => 20
  | .TECHNICAL => 30
  | .CODING => 45
  | .SYSTEM_DESIGN => 45
  | .HR => 15

def getMinQuestionsForRound : RoundType → Nat
  | .BEHAVIORAL => 4
  | .TECHNICAL => 5
  | .CODING => 1
  | .SYSTEM_DESIGN => 2
  | .HR => 3

structure AskQuestionPayload where
  question : String
  category : QuestionCategory
  difficulty : Difficulty
  isFollowUp : Option Bool := none
  parentQuestionId : Option String := none
  deriving DecidableEq, Repr

structure RecordAnswerPayload where
  questionId : String
  answer : String
  score : Option Rat := none
  feedback : Option String := none
  suggestFollowUp : Option Bool := none
  deriving DecidableEq, Repr

structure UpdateCodingStatePayload where
  code : Option String := none
  language : Option String := none
  hintUsed : Option Bool := none
  executionResult : Option CodeExecutionResult := none
  deriving DecidableEq, Repr

structure CodingProblem where
  id : String
  title : String
  description : String
  difficulty : Difficulty
  starterCode : String
  hints : List String
  testCases : Nat
  deriving DecidableEq, Repr

structure CreateStateParams where
  interviewId : String
  userId : String
  sessionId : Option String := none
  roundType : RoundType
  roundOrder : Option Nat := none
  targetRole : Option String := none
  targetCompany : Option String := none
  experienceLevel : Option String := none
  resumeContext : Option String := none
  estimatedDurationMinutes : Option Rat := none
  deriving DecidableEq, Repr

/-- JavaScript `Math.round` on a rational (round half up). -/
def jsRound (x : Rat) : Int := (x + 1/2).floor

/-- JavaScript `Math.floor(a / b)` for integer millisecond arithmetic. -/
def jsFloorDiv (a b : Int) : Int := Int.fdiv a b

/-- The state record built by `createInterviewState` (the uuid and clock are
explicit parameters; `x || d` truthiness on numbers is modelled, `0` being
falsy). -/
def mkInterviewState (params : CreateStateParams) (stateId : String) (now : Int) :
    InterviewState :=
  { id := stateId
    interviewId := params.interviewId
    userId := params.userId
    sessionId := params.sessionId
    roundType := params.roundType
    roundOrder :=
      match params.roundOrder with
      | some n => if n = 0 then 1 else n
      | none => 1
    startedAt := now
    lastActivityAt := now
    estimatedDurationMinutes :=
      match params.estimatedDurationMinutes with
      | some d => if d = 0 then getDefaultDuration params.roundType else d
      | none => getDefaultDuration params.roundType
    elapsedSeconds := 0
    targetRole := params.targetRole
    targetCompany := params.targetCompany
    experienceLevel := params.experienceLevel
    resumeContext := params.resumeContext
    questions := []
    currentQuestionIndex := -1
    topicCoverage := createDefaultTopicCoverage
    performance := createDefaultPerformance
    phase := .not_started
    canProceedToNext := true
    shouldWrapUp := false
    candidateSignals := {}
    createdAt := now
    updatedAt := now }

/-- `setPhase` body once the state is found. -/
def setPhaseState (state : InterviewState) (phase : InterviewPhase) (now : Int) :
    InterviewState :=
  { state with phase := phase, lastActivityAt := now, updatedAt := now }

/-- `recordQuestion` body once the state is found (uuid and clock are
parameters). -/
def recordQuestionState (state : InterviewState) (questionId : String)
    (payload : AskQuestionPayload) (now : Int) : QuestionState × InterviewState :=
  let question : QuestionState :=
    { id := questionId
      question := payload.question
      category := payload.category
      difficulty := payload.difficulty
      askedAt := now
      isFollowUp := payload.isFollowUp.getD false
      parentQuestionId := payload.parentQuestionId }
  let questions := state.questions ++ [question]
  let topic0 := state.topicCoverage.get payload.category
  let topic1 := { topic0 with questionsAsked := topic0.questionsAsked + 1, covered := true }
  let topic2 :=
    if topic1.questionsAsked ≥ 2 ∧ payload.isFollowUp.getD false then
      { topic1 with depth := .deep }
    else if topic1.questionsAsked ≥ 2 then
      { topic1 with depth := .moderate }
    else topic1
  (question,
    { state with
        questions := questions
        currentQuestionIndex := (questions.length : Int) - 1
        lastActivityAt := now
        updatedAt := now
        topicCoverage := state.topicCoverage.set payload.category topic2
        performance :=
          { state.performance with
              totalQuestions := state.performance.totalQuestions + 1 } })

/-- `adjustSuggestedDifficulty`. -/
def adjustSuggestedDifficulty (state : InterviewState) : InterviewState :=
  let perf := state.performance
  let avgScore := perf.averageScore
  let trend := perf.scoreTrend
  let d :=
    if avgScore ≥ 8 ∧ trend ≠ .declining then Difficulty.HARD
    else if avgScore ≥ 6 ∨ trend = .improving then Difficulty.MEDIUM
    else if avgScore < 5 ∧ trend = .declining then Difficulty.EASY
    else Difficulty.MEDIUM
  { state with performance := { perf with suggestedDifficulty := d } }

/-- `updateStrengthsAndWeaknesses`. -/
def updateStrengthsAndWeaknesses (state : InterviewState) : InterviewState :=
  let perf := state.performance
  let topicsWithScores :=
    allCategories.filterMap (fun cat =>
      let coverage := state.topicCoverage.get cat
      if coverage.questionsAsked > 0 ∧ coverage.averageScore > 0 then
        some (cat, coverage.averageScore)
      else none)
  if topicsWithScores.length = 0 then state
  else
    let avgScore := (topicsWithScores.map Prod.snd).sum / (topicsWithScores.length : Rat)
    { state with
        performance :=
          { perf with
              strongAreas :=
                (topicsWithScores.filter (fun t => t.2 ≥ avgScore + 1)).map Prod.fst
              weakAreas :=
                (topicsWithScores.filter (fun t => t.2 ≤ avgScore - 1)).map Prod.fst } }

/-- `updatePerformanceMetrics` (runs after the answered question has been
stamped into `state.questions`). -/
def updatePerformanceMetrics (state : InterviewState) (question : QuestionState) :
    InterviewState :=
  let perf := state.performance
  let answeredQuestions := perf.answeredQuestions + 1
  let recentScores :=
    match question.score with
    | some s =>
        let pushed := perf.recentScores ++ [s]
        if pushed.length > 5 then pushed.tail else pushed
    | none => perf.recentScores
  let totalScore :=
    ((state.questions.filter (fun q => q.score.isSome)).map (fun q => q.score.getD 0)).sum
  let averageScore : Rat :=
    if answeredQuestions > 0 then totalScore / (answeredQuestions : Rat) else 0
  let scoreTrend :=
    if recentScores.length ≥ 3 then
      let recent := recentScores.drop (recentScores.length - 3)
      let avg := recent.sum / (recent.length : Rat)
      let prevAvg :=
        (recentScores.take (recentScores.length - 3)).sum /
          ((max 1 (recentScores.length - 3) : Nat) : Rat)
      if avg > prevAvg + 1 then ScoreTrend.improving
      else if avg < prevAvg - 1 then ScoreTrend.declining
      else ScoreTrend.stable
    else perf.scoreTrend
  let state1 :=
    { state with
        performance :=
          { perf with answeredQuestions, recentScores, averageScore, scoreTrend } }
  adjustSuggestedDifficulty (updateStrengthsAndWeaknesses state1)

/-- `updateTopicCoverageScore`. -/
def updateTopicCoverageScore (state : InterviewState) (question : QuestionState) :
    InterviewState :=
  let topic := state.topicCoverage.get question.category
  let questionsInCategory :=
    state.questions.filter (fun q => q.category == question.category && q.score.isSome)
  let totalScore := (questionsInCategory.map (fun q => q.score.getD 0)).sum
  let avg : Rat :=
    if questionsInCategory.length > 0 then totalScore / (questionsInCategory.length : Rat)
    else 0
  { state with
      topicCoverage :=
        state.topicCoverage.set question.category { topic with averageScore := avg } }

/-- `checkWrapUpConditions`. -/
def checkWrapUpConditions (state : InterviewState) : InterviewState :=
  let elapsedMinutes : Rat := (state.elapsedSeconds : Rat) / 60
  let questionsAsked := state.performance.totalQuestions
  if elapsedMinutes ≥ state.estimatedDurationMinutes * (9 / 10) then
    { state with shouldWrapUp := true }
  else if questionsAsked ≥ getMinQuestionsForRound state.roundType ∧
      state.performance.averageScore ≥ 5 then
    { state with shouldWrapUp := true }
  else state

/-- JS `questions.find(...)` returns a reference that gets mutated in place:
replace the first question with the given id. -/
def replaceQuestion : List QuestionState → String → QuestionState → List QuestionState
  | [], _, _ => []
  | q :: qs, qid, q' => if q.id == qid then q' :: qs else q :: replaceQuestion qs qid q'

/-- The in-place stamping of the found question inside `recordAnswer`. -/
def answeredQuestion (question : QuestionState) (payload : RecordAnswerPayload)
    (now : Int) : QuestionState :=
  { question with
      answer := some payload.answer
      answeredAt := some now
      score := payload.score
      feedback := payload.feedback
      followUpAsked := payload.suggestFollowUp
      timeSpentSeconds := some (jsFloorDiv (now - question.askedAt) 1000) }

/-- `recordAnswer` body once the state is found: `none` when no question in
the log carries the payload's questionId (the TS code returns null before
mutating anything). -/
def recordAnswerState (state : InterviewState) (payload : RecordAnswerPayload)
    (now : Int) : Option (QuestionState × InterviewState) :=
  match state.questions.find? (fun q => q.id == payload.questionId) with
  | none => none
  | some question =>
      let answered := answeredQuestion question payload now
      let state1 :=
        { state with
            questions := replaceQuestion state.questions payload.questionId answered
            lastActivityAt := now
            updatedAt := now }
      let state2 := updatePerformanceMetrics state1 answered
      let state3 := updateTopicCoverageScore state2 answered
      some (answered, checkWrapUpConditions state3)

/-- `{...state.candidateSignals, ...signals}`: fields present in the patch
overwrite, absent fields retain their prior values. -/
def mergeSignals (a b : CandidateSignals) : CandidateSignals :=
  { currentExpression := b.currentExpression <|> a.currentExpression
    expressionConfidence := b.expressionConfidence <|> a.expressionConfidence
    averageExpressions := b.averageExpressions <|> a.averageExpressions
    currentPauseSeconds := b.currentPauseSeconds <|> a.currentPauseSeconds
    longPauseDetected := b.longPauseDetected <|> a.longPauseDetected
    isTyping := b.isTyping <|> a.isTyping
    lastCodeUpdate := b.lastCodeUpdate <|> a.lastCodeUpdate
    codeLength := b.codeLength <|> a.codeLength }

/-- `updateConfidenceLevel`. -/
def updateConfidenceLevel (state : InterviewState) : InterviewState :=
  let signals := state.candidateSignals
  let state1 :=
    match signals.averageExpressions with
    | some e =>
        let positiveScore := e.happy.getD 0 + e.neutral.getD 0
        let negativeScore := e.fearful.getD 0 + e.sad.getD 0 + e.angry.getD 0
        if positiveScore > 3 / 5 ∧ negativeScore < 1 / 5 then
          { state with
              performance := { state.performance with confidenceLevel := .high } }
        else if negativeScore > 2 / 5 then
          { state with
              performance := { state.performance with confidenceLevel := .low } }
        else
          { state with
              performance := { state.performance with confidenceLevel := .medium } }
    | none => state
  if signals.longPauseDetected.getD false then
    { state1 with performance := { state1.performance with confidenceLevel := .low } }
  else state1

/-- `updateCandidateSignals` body once the state is found (note: only
`lastActivityAt` is refreshed, not `updatedAt`). -/
def updateCandidateSignalsState (state : InterviewState) (signals : CandidateSignals)
    (now : Int) : InterviewState :=
  updateConfidenceLevel
    { state with
        candidateSignals := mergeSignals state.candidateSignals signals
        lastActivityAt := now }

/-- `initializeCodingState` body once the state is found. -/
def initializeCodingStateState (state : InterviewState) (problem : CodingProblem)
    (language : String) (now : Int) : CodingState × InterviewState :=
  let codingState : CodingState :=
    { problemId := problem.id
      problemTitle := problem.title
      problemDescription := problem.description
      difficulty := problem.difficulty
      language := language
      currentCode := problem.starterCode
      starterCode := problem.starterCode
      hintsUsed := 0
      hintsAvailable := problem.hints
      testCasesPassed := 0
      totalTestCases := problem.testCases
      submissions := []
      startedAt := now
      timeSpentSeconds := 0 }
  (codingState,
    { state with
        codingState := some codingState
        phase := .coding_setup
        lastActivityAt := now
        updatedAt := now })

/-- `updateCodingState` body once the state is found: `none` when no coding
sub-state exists. -/
def updateCodingStateState (state : InterviewState) (payload : UpdateCodingStatePayload)
    (now : Int) : Option (CodingState × InterviewState) :=
  match state.codingState with
  | none => none
  | some coding0 =>
      let coding1 :=
        match payload.code with
        | some c => { coding0 with currentCode := c }
        | none => coding0
      let coding2 :=
        match payload.language with
        | some l => { coding1 with language := l }
        | none => coding1
      let coding3 :=
        if payload.hintUsed.getD false then
          { coding2 with hintsUsed := coding2.hintsUsed + 1 }
        else coding2
      let coding4 :=
        match payload.executionResult with
        | some r =>
            let c := { coding3 with lastExecutionResult := some r }
            match r.testResults with
            | some ts =>
                { c with
                    testCasesPassed :=
                      (ts.filter (fun t : TestCaseResult => t.passed)).length }
            | none => c
        | none => coding3
      let coding5 :=
        { coding4 with timeSpentSeconds := jsFloorDiv (now - coding4.startedAt) 1000 }
      some (coding5,
        { state with codingState := some coding5, lastActivityAt := now, updatedAt := now })

/-- `recordCodeSubmission` body once the state is found: `none` when no
coding sub-state exists. -/
def recordCodeSubmissionState (state : InterviewState) (submissionId code language : String)
    (result : CodeExecutionResult) (now : Int) : Option (CodingState × InterviewState) :=
  match state.codingState with
  | none => none
  | some coding0 =>
      let coding1 :=
        { coding0 with
            submissions :=
              coding0.submissions ++
                [{ id := submissionId, code := code, language := language,
                   submittedAt := now, result := result }]
            lastExecutionResult := some result }
      let coding2 :=
        match result.testResults with
        | some ts =>
            { coding1 with
                testCasesPassed := (ts.filter (fun t : TestCaseResult => t.passed)).length }
        | none => coding1
      some (coding2,
        { state with codingState := some coding2, lastActivityAt := now, updatedAt := now })

structure CodingProgress where
  problemTitle : String
  testsPassed : Nat
  totalTests : Nat
  hintsUsed : Nat
  deriving DecidableEq, Repr

structure InterviewStateSnapshot where
  phase : InterviewPhase
  questionsAsked : Nat
  averageScore : Rat
  topicsCovered : List QuestionCategory
  topicsRemaining : List QuestionCategory
  suggestedDifficulty : Difficulty
  timeElapsedMinutes : Int
  shouldWrapUp : Bool
  codingProgress : Option CodingProgress := none
  deriving DecidableEq, Repr

/-- `getStateSnapshot` body once the state is found (pure projection). -/
def stateSnapshot (state : InterviewState) : InterviewStateSnapshot :=
  { phase := state.phase
    questionsAsked := state.performance.totalQuestions
    averageScore := (jsRound (state.performance.averageScore * 10) : Rat) / 10
    topicsCovered := allCategories.filter (fun c => (state.topicCoverage.get c).covered)
    topicsRemaining := allCategories.filter (fun c => !(state.topicCoverage.get c).covered)
    suggestedDifficulty := state.performance.suggestedDifficulty
    timeElapsedMinutes := jsRound ((state.elapsedSeconds : Rat) / 60)
    shouldWrapUp := state.shouldWrapUp
    codingProgress :=
      state.codingState.map (fun cs =>
        { problemTitle := cs.problemTitle
          testsPassed := cs.testCasesPassed
          totalTests := cs.totalTestCases
          hintsUsed := cs.hintsUsed }) }

/-- `updateElapsedTime` body once the state is found. -/
def updateElapsedTimeState (state : InterviewState) (now : Int) : InterviewState :=
  { state with elapsedSeconds := jsFloorDiv (now - state.startedAt) 1000 }

/-- `completeInterview` body once the state is found (the persistence write
is external I/O). -/
def completeInterviewState (state : InterviewState) (now : Int) : InterviewState :=
  updateElapsedTimeState { state with phase := .completed, updatedAt := now } now

/-! ## The process-wide store (`const stateStore = new Map<string, InterviewState>()`) -/

/-- Association list standing for the `Map`; `storeSet` keeps the `Map.set`
semantics (replace in place if present, append otherwise). -/
abbrev StateStore := List (String × InterviewState)

def storeGet (store : StateStore) (interviewId : String) : Option InterviewState :=
  match store.find? (fun p => p.1 == interviewId) with
  | some p => some p.2
  | none => none

def storeSet (store : StateStore) (interviewId : String) (s : InterviewState) : StateStore :=
  if (store.find? (fun p => p.1 == interviewId)).isSome then
    store.map (fun p => if p.1 == interviewId then (interviewId, s) else p)
  else store ++ [(interviewId, s)]

/-- `createInterviewState` (persistence timer omitted: pure I/O). -/
def createInterviewState (store : StateStore) (params : CreateStateParams)
    (stateId : String) (now : Int) : InterviewState × StateStore :=
  let s := mkInterviewState params stateId now
  (s, storeSet store params.interviewId s)

/-- `getInterviewState`. -/
def getInterviewState (store : StateStore) (interviewId : String) : Option InterviewState :=
  storeGet store interviewId

/-- `setPhase`. -/
def setPhase (store : StateStore) (interviewId : String) (phase : InterviewPhase)
    (now : Int) : Option InterviewState × StateStore :=
  match storeGet store interviewId with
  | none => (none, store)
  | some state =>
      let s := setPhaseState state phase now
      (some s, storeSet store interviewId s)

/-- `recordQuestion`. -/
def recordQuestion (store : StateStore) (interviewId : String) (questionId : String)
    (payload : AskQuestionPayload) (now : Int) : Option QuestionState × StateStore :=
  match storeGet store interviewId with
  | none => (none, store)
  | some state =>
      let (q, s) := recordQuestionState state questionId payload now
      (some q, storeSet store interviewId s)

/-- `recordAnswer`. -/
def recordAnswer (store : StateStore) (interviewId : String)
    (payload : RecordAnswerPayload) (now : Int) : Option QuestionState × StateStore :=
  match storeGet store interviewId with
  | none => (none, store)
  | some state =>
      match recordAnswerState state payload now with
      | none => (none, store)
      | some (q, s) => (some q, storeSet store interviewId s)

/-- `updateCandidateSignals`. -/
def updateCandidateSignals (store : StateStore) (interviewId : String)
    (signals : CandidateSignals) (now : Int) : Option InterviewState × StateStore :=
  match storeGet store interviewId with
  | none => (none, store)
  | some state =>
      let s := updateCandidateSignalsState state signals now
      (some s, storeSet store interviewId s)

/-- `initializeCodingState`. -/
def initializeCodingState (store : StateStore) (interviewId : String)
    (problem : CodingProblem) (language : String) (now : Int) :
    Option CodingState × StateStore :=
  match storeGet store interviewId with
  | none => (none, store)
  | some state =>
      let (c, s) := initializeCodingStateState state problem language now
      (some c, storeSet store interviewId s)

/-- `updateCodingState`. -/
def updateCodingState (store : StateStore) (interviewId : String)
    (payload : UpdateCodingStatePayload) (now : Int) : Option CodingState × StateStore :=
  match storeGet store interviewId with
  | none => (none, store)
  | some state =>
      match updateCodingStateState state payload now with
      | none => (none, store)
      | some (c, s) => (some c, storeSet store interviewId s)

/-- `recordCodeSubmission`. -/
def recordCodeSubmission (store : StateStore) (interviewId : String)
    (submissionId code language : String) (result : CodeExecutionResult) (now : Int) :
    Option CodingState × StateStore :=
  match storeGet store interviewId with
  | none => (none, store)
  | some state =>
      match recordCodeSubmissionState state submissionId code language result now with
      | none => (none, store)
      | some (c, s) => (some c, storeSet store interviewId s)

/-- `getStateSnapshot`: pure, never writes the store. -/
def getStateSnapshot (store : StateStore) (interviewId : String) :
    Option InterviewStateSnapshot :=
  match storeGet store interviewId with
  | none => none
  | some state => some (stateSnapshot state)

/-- `updateElapsedTime` (returns void in TS; here the updated store). -/
def updateElapsedTime (store : StateStore) (interviewId : String) (now : Int) :
    StateStore :=
  match storeGet store interviewId with
  | none => store
  | some state => storeSet store interviewId (updateElapsedTimeState state now)

/-- `completeInterview`. -/
def completeInterview (store : StateStore) (interviewId : String) (now : Int) :
    Option InterviewState × StateStore :=
  match storeGet store interviewId with
  | none => (none, store)
  | some state =>
      let s := completeInterviewState state now
      (some s, storeSet store interviewId s)

/-- `deleteState`. -/
def deleteState (store : StateStore) (interviewId : String) : StateStore :=
  store.filter (fun p => !(p.1 == interviewId))

/-! ## The question-generation tool path (`interactive-vapi.service.ts`) -/

structure NextQuestionResponse where
  question : String
  category : QuestionCategory
  difficulty : Difficulty
  context : Option String := none
  isFollowUp : Bool
  topicsRemaining : List QuestionCategory
  estimatedQuestionsLeft : Nat
  deriving DecidableEq, Repr

/-- The hard-coded response `getNextQuestion` returns when no state exists. -/
def fallbackNextQuestion : NextQuestionResponse :=
  { question := "Can you tell me about your background?"
    category := .introduction
    difficulty := .MEDIUM
    isFollowUp := false
    topicsRemaining := []
    estimatedQuestionsLeft := 5 }

/-- `getNextQuestion` from `interactive-vapi.service.ts`: the LLM-generated
question is an explicit parameter (external call), as are the fresh uuid and
the clock; the state-relevant steps are the introduction → main-questions
promotion check and the `recordQuestion` call. -/
def getNextQuestion (store : StateStore) (interviewId : String)
    (generated : NextQuestionResponse) (questionId : String) (now : Int) :
    NextQuestionResponse × StateStore :=
  match storeGet store interviewId with
  | none => (fallbackNextQuestion, store)
  | some state =>
      let store1 :=
        if state.phase = .introduction ∧ state.performance.totalQuestions > 0 then
          (setPhase store interviewId .main_questions now).2
        else store
      let store2 :=
        (recordQuestion store1 interviewId questionId
          { question := generated.question
            category := generated.category
            difficulty := generated.difficulty
            isFollowUp := some generated.isFollowUp } now).2
      (generated, store2)

/-! ## Single-interview operation alphabet (for invariants over sequences) -/

/-- One mutating call against a single interview's state, with every
externally supplied value (payloads, fresh uuids, clock readings) carried
in the constructor. -/
inductive StateOp where
  | recordQuestion (questionId : String) (payload : AskQuestionPayload) (now : Int)
  | recordAnswer (payload : RecordAnswerPayload) (now : Int)
  | updateCandidateSignals (signals : CandidateSignals) (now : Int)
  | setPhase (phase : InterviewPhase) (now : Int)
  | initializeCodingState (problem : CodingProblem) (language : String) (now : Int)
  | updateCodingState (payload : UpdateCodingStatePayload) (now : Int)
  | recordCodeSubmission (submissionId code language : String)
      (result : CodeExecutionResult) (now : Int)
  | updateElapsedTime (now : Int)
  | completeInterview (now : Int)
  deriving DecidableEq, Repr

/-- Effect of one operation on the interview's state (a failed lookup inside
the operation leaves the state unchanged, as the TS code returns null before
mutating). -/
def applyOp (op : StateOp) (s : InterviewState) : InterviewState :=
  match op with
  | .recordQuestion qid p now => (recordQuestionState s qid p now).2
  | .recordAnswer p now =>
      match recordAnswerState s p now with
      | some (_, s') => s'
      | none => s
  | .updateCandidateSignals sig now => updateCandidateSignalsState s sig now
  | .setPhase ph now => setPhaseState s ph now
  | .initializeCodingState prob lang now => (initializeCodingStateState s prob lang now).2
  | .updateCodingState p now =>
      match updateCodingStateState s p now with
      | some (_, s') => s'
      | none => s
  | .recordCodeSubmission sid c l r now =>
      match recordCodeSubmissionState s sid c l r now with
      | some (_, s') => s'
      | none => s
  | .updateElapsedTime now => updateElapsedTimeState s now
  | .completeInterview now => completeInterviewState s now

def applyOps (ops : List StateOp) (s : InterviewState) : InterviewState :=
  ops.foldl (fun t op => applyOp op t) s

/-- The scores of all scored questions in the log — the aggregation
`state.questions.filter(q => q.score !== undefined)` mapped to its scores,
whose sum is the numerator of `updatePerformanceMetrics`' average. -/
def scoredScores (s : InterviewState) : List Rat :=
  (s.questions.filter (fun q => q.score.isSome)).map (fun q => q.score.getD 0)

/-! ## Shared concrete scenario inputs (for witnesses and counterexamples) -/

def demoParams : CreateStateParams :=
  { interviewId := "int1", userId := "user1", roundType := .BEHAVIORAL }

def demoState0 : InterviewState := mkInterviewState demoParams "st1" 0

def mkAsk (text : String) : AskQuestionPayload :=
  { question := text, category := .behavioral, difficulty := .MEDIUM }

def mkAns (qid : String) (sc : Option Rat) : RecordAnswerPayload :=
  { questionId := qid, answer := "a", score := sc }

def dummyQuestion : QuestionState :=
  { id := "none", question := "none", category := .behavioral,
    difficulty := .MEDIUM, askedAt := 0, isFollowUp := false }

def c3State : InterviewState := { demoState0 with shouldWrapUp := true }

def c3Ops : List StateOp :=
  [ .recordQuestion "q1" (mkAsk "Q1") 1000,
    .recordAnswer (mkAns "q1" (some 1)) 2000,
    .setPhase .wrap_up 3000,
    .updateCandidateSignals { longPauseDetected := some true } 4000,
    .updateElapsedTime 5000,
    .completeInterview 6000 ]

def c1Ops : List StateOp :=
  [ .recordQuestion "q1" (mkAsk "Q1") 1000,
    .recordAnswer (mkAns "q1" (some 8)) 2000,
    .recordQuestion "q2" (mkAsk "Q2") 3000,
    .recordAnswer (mkAns "q2" none) 4000 ]

def c1Final : InterviewState := applyOps c1Ops demoState0

def c1wState : InterviewState := (recordQuestionState demoState0 "q1" (mkAsk "Q1") 0).2

def c1wRes : QuestionState × InterviewState :=
  (recordAnswerState c1wState (mkAns "q1" (some 8)) 0).getD (dummyQuestion, demoState0)

def c2aOps : List StateOp :=
  [ .recordQuestion "q1" (mkAsk "Q1") 0, .recordAnswer (mkAns "q1" (some 5)) 0,
    .recordQuestion "q2" (mkAsk "Q2") 0, .recordAnswer (mkAns "q2" (some 5)) 0,
    .recordQuestion "q3" (mkAsk "Q3") 0, .recordAnswer (mkAns "q3" (some 5)) 0,
    .recordQuestion "q4" (mkAsk "Q4") 0, .recordAnswer (mkAns "q4" (some 5)) 0 ]

def c2bOps : List StateOp :=
  [ .recordQuestion "q1" (mkAsk "Q1") 0, .recordAnswer (mkAns "q1" (some 9)) 0,
    .recordQuestion "q2" (mkAsk "Q2") 0, .recordAnswer (mkAns "q2" (some 9)) 0,
    .recordQuestion "q3" (mkAsk "Q3") 0, .recordAnswer (mkAns "q3" (some 9)) 0 ]

def c2wState : InterviewState := (recordQuestionState demoState0 "q1" (mkAsk "Q1") 0).2

def c2wRes : QuestionState × InterviewState :=
  (recordAnswerState c2wState (mkAns "q1" (some 5)) 0).getD (dummyQuestion, demoState0)

def c4Hard : InterviewState :=
  { demoState0 with
      performance := { demoState0.performance with averageScore := 9, scoreTrend := .stable } }

def c4Easy : InterviewState :=
  { demoState0 with
      performance :=
        { demoState0.performance with averageScore := 4, scoreTrend := .declining } }

def c4Mid (t : ScoreTrend) : InterviewState :=
  { demoState0 with
      performance := { demoState0.performance with averageScore := 13 / 2, scoreTrend := t } }

def c4wState : InterviewState := (recordQuestionState demoState0 "q1" (mkAsk "Q1") 0).2

def c4wRes : QuestionState × InterviewState :=
  (recordAnswerState c4wState (mkAns "q1" (some 9)) 0).getD (dummyQuestion, demoState0)

def c5Ops : List StateOp :=
  [ .recordQuestion "q1" (mkAsk "Q1") 0,
    .recordQuestion "q2"
      { question := "Q2", category := .behavioral, difficulty := .MEDIUM,
        isFollowUp := some true } 0 ]

def c5Final : InterviewState := applyOps c5Ops demoState0

def c6wOps : List StateOp :=
  [ .recordQuestion "q1" (mkAsk "Q1") 0, .recordAnswer (mkAns "q1" (some 5)) 0,
    .recordQuestion "q2" (mkAsk "Q2") 0, .recordAnswer (mkAns "q2" (some 5)) 0,
    .recordQuestion "q3" (mkAsk "Q3") 0 ]

def c6wState : InterviewState := applyOps c6wOps demoState0

def c6wRes : QuestionState × InterviewState :=
  (recordAnswerState c6wState (mkAns "q3" (some 5)) 0).getD (dummyQuestion, demoState0)

def c7Gen : NextQuestionResponse :=
  { question := "Q2", category := .behavioral, difficulty := .MEDIUM, isFollowUp := false,
    topicsRemaining := [], estimatedQuestionsLeft := 4 }

def c7Store0 : StateStore := (createInterviewState [] demoParams "st1" 0).2

def c7Store1 : StateStore := (setPhase c7Store0 "int1" .introduction 0).2

def c7Store2 : StateStore := (recordQuestion c7Store1 "int1" "q1" (mkAsk "Q1") 0).2

def c7Store3 : StateStore := (getNextQuestion c7Store2 "int1" c7Gen "q2" 0).2

def c7State : InterviewState := (storeGet c7Store2 "int1").getD demoState0

def c8Store : StateStore := (createInterviewState [] demoParams "st1" 0).2

def c8Problem : CodingProblem :=
  { id := "p1", title := "Two Sum", description := "find the pair",
    difficulty := .MEDIUM, starterCode := "def f...", hints := ["h1"], testCases := 3 }

def c9Store : StateStore := (createInterviewState [] demoParams "st9" 0).2

/-! ## Lemmas: field preservation of the individual mutators -/

theorem TopicCoverageMap.get_set_same (m : TopicCoverageMap) (c : QuestionCategory)
    (t : TopicCoverage) : (m.set c t).get c = t := by
  cases c <;> rfl

theorem mem_allCategories (c : QuestionCategory) : c ∈ allCategories := by
  cases c <;> simp [allCategories]

theorem setPhaseState_shouldWrapUp (s : InterviewState) (ph : InterviewPhase) (now : Int) :
    (setPhaseState s ph now).shouldWrapUp = s.shouldWrapUp := rfl

theorem recordQuestionState_shouldWrapUp (s : InterviewState) (qid : String)
    (p : AskQuestionPayload) (now : Int) :
    (recordQuestionState s qid p now).2.shouldWrapUp = s.shouldWrapUp := rfl

theorem recordQuestionState_questions (s : InterviewState) (qid : String)
    (p : AskQuestionPayload) (now : Int) :
    (recordQuestionState s qid p now).2.questions =
      s.questions ++ [(recordQuestionState s qid p now).1] := rfl

theorem recordQuestionState_totalQuestions (s : InterviewState) (qid : String)
    (p : AskQuestionPayload) (now : Int) :
    (recordQuestionState s qid p now).2.performance.totalQuestions =
      s.performance.totalQuestions + 1 := rfl

theorem updateStrengthsAndWeaknesses_shouldWrapUp (s : InterviewState) :
    (updateStrengthsAndWeaknesses s).shouldWrapUp = s.shouldWrapUp := by
  simp only [updateStrengthsAndWeaknesses]
  split <;> rfl

theorem updateStrengthsAndWeaknesses_questions (s : InterviewState) :
    (updateStrengthsAndWeaknesses s).questions = s.questions := by
  simp only [updateStrengthsAndWeaknesses]
  split <;> rfl

theorem updateStrengthsAndWeaknesses_totalQuestions (s : InterviewState) :
    (updateStrengthsAndWeaknesses s).performance.totalQuestions =
      s.performance.totalQuestions := by
  simp only [updateStrengthsAndWeaknesses]
  split <;> rfl

theorem updateStrengthsAndWeaknesses_averageScore (s : InterviewState) :
    (updateStrengthsAndWeaknesses s).performance.averageScore =
      s.performance.averageScore := by
  simp only [updateStrengthsAndWeaknesses]
  split <;> rfl

theorem updateStrengthsAndWeaknesses_answeredQuestions (s : InterviewState) :
    (updateStrengthsAndWeaknesses s).performance.answeredQuestions =
      s.performance.answeredQuestions := by
  simp only [updateStrengthsAndWeaknesses]
  split <;> rfl

theorem updateStrengthsAndWeaknesses_recentScores (s : InterviewState) :
    (updateStrengthsAndWeaknesses s).performance.recentScores =
      s.performance.recentScores := by
  simp only [updateStrengthsAndWeaknesses]
  split <;> rfl

theorem updateStrengthsAndWeaknesses_scoreTrend (s : InterviewState) :
    (updateStrengthsAndWeaknesses s).performance.scoreTrend =
      s.performance.scoreTrend := by
  simp only [updateStrengthsAndWeaknesses]
  split <;> rfl

theorem adjustSuggestedDifficulty_shouldWrapUp (s : InterviewState) :
    (adjustSuggestedDifficulty s).shouldWrapUp = s.shouldWrapUp := rfl

theorem adjustSuggestedDifficulty_questions (s : InterviewState) :
    (adjustSuggestedDifficulty s).questions = s.questions := rfl

theorem adjustSuggestedDifficulty_totalQuestions (s : InterviewState) :
    (adjustSuggestedDifficulty s).performance.totalQuestions =
      s.performance.totalQuestions := rfl

theorem adjustSuggestedDifficulty_averageScore (s : InterviewState) :
    (adjustSuggestedDifficulty s).performance.averageScore =
      s.performance.averageScore := rfl

theorem adjustSuggestedDifficulty_answeredQuestions (s : InterviewState) :
    (adjustSuggestedDifficulty s).performance.answeredQuestions =
      s.performance.answeredQuestions := rfl

theorem adjustSuggestedDifficulty_recentScores (s : InterviewState) :
    (adjustSuggestedDifficulty s).performance.recentScores =
      s.performance.recentScores := rfl

theorem adjustSuggestedDifficulty_scoreTrend (s : InterviewState) :
    (adjustSuggestedDifficulty s).performance.scoreTrend =
      s.performance.scoreTrend := rfl

theorem adjustSuggestedDifficulty_suggestedDifficulty (s : InterviewState) :
    (adjustSuggestedDifficulty s).performance.suggestedDifficulty =
      (if s.performance.averageScore ≥ 8 ∧ s.performance.scoreTrend ≠ .declining then
        Difficulty.HARD
      else if s.performance.averageScore ≥ 6 ∨ s.performance.scoreTrend = .improving then
        Difficulty.MEDIUM
      else if s.performance.averageScore < 5 ∧ s.performance.scoreTrend = .declining then
        Difficulty.EASY
      else Difficulty.MEDIUM) := rfl

theorem updatePerformanceMetrics_shouldWrapUp (s : InterviewState) (q : QuestionState) :
    (updatePerformanceMetrics s q).shouldWrapUp = s.shouldWrapUp := by
  simp only [updatePerformanceMetrics]
  rw [adjustSuggestedDifficulty_shouldWrapUp, updateStrengthsAndWeaknesses_shouldWrapUp]

theorem updatePerformanceMetrics_questions (s : InterviewState) (q : QuestionState) :
    (updatePerformanceMetrics s q).questions = s.questions := by
  simp only [updatePerformanceMetrics]
  rw [adjustSuggestedDifficulty_questions, updateStrengthsAndWeaknesses_questions]

theorem updatePerformanceMetrics_totalQuestions (s : InterviewState) (q : QuestionState) :
    (updatePerformanceMetrics s q).performance.totalQuestions =
      s.performance.totalQuestions := by
  simp only [updatePerformanceMetrics]
  rw [adjustSuggestedDifficulty_totalQuestions, updateStrengthsAndWeaknesses_totalQuestions]

theorem updatePerformanceMetrics_answeredQuestions (s : InterviewState) (q : QuestionState) :
    (updatePerformanceMetrics s q).performance.answeredQuestions =
      s.performance.answeredQuestions + 1 := by
  simp only [updatePerformanceMetrics]
  rw [adjustSuggestedDifficulty_answeredQuestions,
    updateStrengthsAndWeaknesses_answeredQuestions]

theorem updatePerformanceMetrics_averageScore (s : InterviewState) (q : QuestionState) :
    (updatePerformanceMetrics s q).performance.averageScore =
      (scoredScores s).sum / ((s.performance.answeredQuestions + 1 : Nat) : Rat) := by
  simp only [updatePerformanceMetrics]
  rw [adjustSuggestedDifficulty_averageScore, updateStrengthsAndWeaknesses_averageScore]
  simp [scoredScores]

theorem updateTopicCoverageScore_shouldWrapUp (s : InterviewState) (q : QuestionState) :
    (updateTopicCoverageScore s q).shouldWrapUp = s.shouldWrapUp := rfl

theorem updateTopicCoverageScore_questions (s : InterviewState) (q : QuestionState) :
    (updateTopicCoverageScore s q).questions = s.questions := rfl

theorem updateTopicCoverageScore_performance (s : InterviewState) (q : QuestionState) :
    (updateTopicCoverageScore s q).performance = s.performance := rfl

theorem checkWrapUpConditions_shouldWrapUp (s : InterviewState) :
    (checkWrapUpConditions s).shouldWrapUp = true ↔
      (s.shouldWrapUp = true ∨
        ((s.elapsedSeconds : Rat) / 60 ≥ s.estimatedDurationMinutes * (9 / 10) ∨
          (s.performance.totalQuestions ≥ getMinQuestionsForRound s.roundType ∧
            s.performance.averageScore ≥ 5))) := by
  simp only [checkWrapUpConditions]
  split
  · next h => simp [h]
  · next h =>
      split
      · next h2 => simp [h2]
      · next h2 => simp [h, h2]

theorem checkWrapUpConditions_performance (s : InterviewState) :
    (checkWrapUpConditions s).performance = s.performance := by
  simp only [checkWrapUpConditions]
  split
  · rfl
  · split <;> rfl

theorem checkWrapUpConditions_questions (s : InterviewState) :
    (checkWrapUpConditions s).questions = s.questions := by
  simp only [checkWrapUpConditions]
  split
  · rfl
  · split <;> rfl

theorem checkWrapUpConditions_elapsedSeconds (s : InterviewState) :
    (checkWrapUpConditions s).elapsedSeconds = s.elapsedSeconds := by
  simp only [checkWrapUpConditions]
  split
  · rfl
  · split <;> rfl

theorem checkWrapUpConditions_estimatedDurationMinutes (s : InterviewState) :
    (checkWrapUpConditions s).estimatedDurationMinutes = s.estimatedDurationMinutes := by
  simp only [checkWrapUpConditions]
  split
  · rfl
  · split <;> rfl

theorem checkWrapUpConditions_roundType (s : InterviewState) :
    (checkWrapUpConditions s).roundType = s.roundType := by
  simp only [checkWrapUpConditions]
  split
  · rfl
  · split <;> rfl

theorem checkWrapUpConditions_shouldWrapUp_mono (s : InterviewState)
    (h : s.shouldWrapUp = true) : (checkWrapUpConditions s).shouldWrapUp = true :=
  (checkWrapUpConditions_shouldWrapUp s).mpr (Or.inl h)

theorem updateConfidenceLevel_shouldWrapUp (s : InterviewState) :
    (updateConfidenceLevel s).shouldWrapUp = s.shouldWrapUp := by
  simp only [updateConfidenceLevel]
  cases hx : s.candidateSignals.averageExpressions <;> (repeat' split) <;> rfl

theorem updateConfidenceLevel_questions (s : InterviewState) :
    (updateConfidenceLevel s).questions = s.questions := by
  simp only [updateConfidenceLevel]
  cases hx : s.candidateSignals.averageExpressions <;> (repeat' split) <;> rfl

theorem updateConfidenceLevel_totalQuestions (s : InterviewState) :
    (updateConfidenceLevel s).performance.totalQuestions =
      s.performance.totalQuestions := by
  simp only [updateConfidenceLevel]
  cases hx : s.candidateSignals.averageExpressions <;> (repeat' split) <;> rfl

theorem updateCandidateSignalsState_shouldWrapUp (s : InterviewState)
    (sig : CandidateSignals) (now : Int) :
    (updateCandidateSignalsState s sig now).shouldWrapUp = s.shouldWrapUp := by
  simp only [updateCandidateSignalsState]
  rw [updateConfidenceLevel_shouldWrapUp]

theorem updateCandidateSignalsState_questions (s : InterviewState)
    (sig : CandidateSignals) (now : Int) :
    (updateCandidateSignalsState s sig now).questions = s.questions := by
  simp only [updateCandidateSignalsState]
  rw [updateConfidenceLevel_questions]

theorem updateCandidateSignalsState_totalQuestions (s : InterviewState)
    (sig : CandidateSignals) (now : Int) :
    (updateCandidateSignalsState s sig now).performance.totalQuestions =
      s.performance.totalQuestions := by
  simp only [updateCandidateSignalsState]
  rw [updateConfidenceLevel_totalQuestions]

theorem recordAnswerState_shouldWrapUp_mono (s : InterviewState)
    (p : RecordAnswerPayload) (now : Int) (q' : QuestionState) (s' : InterviewState)
    (hr : recordAnswerState s p now = some (q', s'))
    (h : s.shouldWrapUp = true) : s'.shouldWrapUp = true := by
  simp only [recordAnswerState] at hr
  cases hfind : s.questions.find? (fun q => q.id == p.questionId) with
  | none => rw [hfind] at hr; exact absurd hr (by simp)
  | some q0 =>
      rw [hfind] at hr
      simp only [Option.some.injEq, Prod.mk.injEq] at hr
      obtain ⟨-, hs⟩ := hr
      subst hs
      apply checkWrapUpConditions_shouldWrapUp_mono
      rw [updateTopicCoverageScore_shouldWrapUp, updatePerformanceMetrics_shouldWrapUp]
      exact h

theorem updateCodingStateState_shouldWrapUp (s : InterviewState)
    (p : UpdateCodingStatePayload) (now : Int) (c : CodingState) (s' : InterviewState)
    (hr : updateCodingStateState s p now = some (c, s')) :
    s'.shouldWrapUp = s.shouldWrapUp := by
  simp only [updateCodingStateState] at hr
  cases hcs : s.codingState with
  | none => rw [hcs] at hr; exact absurd hr (by simp)
  | some c0 =>
      rw [hcs] at hr
      simp only [Option.some.injEq, Prod.mk.injEq] at hr
      obtain ⟨-, hs⟩ := hr
      subst hs
      rfl

theorem updateCodingStateState_questions (s : InterviewState)
    (p : UpdateCodingStatePayload) (now : Int) (c : CodingState) (s' : InterviewState)
    (hr : updateCodingStateState s p now = some (c, s')) :
    s'.questions = s.questions := by
  simp only [updateCodingStateState] at hr
  cases hcs : s.codingState with
  | none => rw [hcs] at hr; exact absurd hr (by simp)
  | some c0 =>
      rw [hcs] at hr
      simp only [Option.some.injEq, Prod.mk.injEq] at hr
      obtain ⟨-, hs⟩ := hr
      subst hs
      rfl

theorem updateCodingStateState_performance (s : InterviewState)
    (p : UpdateCodingStatePayload) (now : Int) (c : CodingState) (s' : InterviewState)
    (hr : updateCodingStateState s p now = some (c, s')) :
    s'.performance = s.performance := by
  simp only [updateCodingStateState] at hr
  cases hcs : s.codingState with
  | none => rw [hcs] at hr; exact absurd hr (by simp)
  | some c0 =>
      rw [hcs] at hr
      simp only [Option.some.injEq, Prod.mk.injEq] at hr
      obtain ⟨-, hs⟩ := hr
      subst hs
      rfl

theorem recordCodeSubmissionState_shouldWrapUp (s : InterviewState)
    (sid code lang : String) (r : CodeExecutionResult) (now : Int)
    (c : CodingState) (s' : InterviewState)
    (hr : recordCodeSubmissionState s sid code lang r now = some (c, s')) :
    s'.shouldWrapUp = s.shouldWrapUp := by
  simp only [recordCodeSubmissionState] at hr
  cases hcs : s.codingState with
  | none => rw [hcs] at hr; exact absurd hr (by simp)
  | some c0 =>
      rw [hcs] at hr
      simp only [Option.some.injEq, Prod.mk.injEq] at hr
      obtain ⟨-, hs⟩ := hr
      subst hs
      rfl

theorem recordCodeSubmissionState_questions (s : InterviewState)
    (sid code lang : String) (r : CodeExecutionResult) (now : Int)
    (c : CodingState) (s' : InterviewState)
    (hr : recordCodeSubmissionState s sid code lang r now = some (c, s')) :
    s'.questions = s.questions := by
  simp only [recordCodeSubmissionState] at hr
  cases hcs : s.codingState with
  | none => rw [hcs] at hr; exact absurd hr (by simp)
  | some c0 =>
      rw [hcs] at hr
      simp only [Option.some.injEq, Prod.mk.injEq] at hr
      obtain ⟨-, hs⟩ := hr
      subst hs
      rfl

theorem recordCodeSubmissionState_performance (s : InterviewState)
    (sid code lang : String) (r : CodeExecutionResult) (now : Int)
    (c : CodingState) (s' : InterviewState)
    (hr : recordCodeSubmissionState s sid code lang r now = some (c, s')) :
    s'.performance = s.performance := by
  simp only [recordCodeSubmissionState] at hr
  cases hcs : s.codingState with
  | none => rw [hcs] at hr; exact absurd hr (by simp)
  | some c0 =>
      rw [hcs] at hr
      simp only [Option.some.injEq, Prod.mk.injEq] at hr
      obtain ⟨-, hs⟩ := hr
      subst hs
      rfl

theorem applyOp_shouldWrapUp_mono (op : StateOp) (s : InterviewState)
    (h : s.shouldWrapUp = true) : (applyOp op s).shouldWrapUp = true := by
  cases op with
  | recordQuestion qid p now => rw [applyOp, recordQuestionState_shouldWrapUp]; exact h
  | recordAnswer p now =>
      rw [applyOp]
      cases hr : recordAnswerState s p now with
      | none => exact h
      | some r => exact recordAnswerState_shouldWrapUp_mono s p now r.1 r.2 (by rw [hr]) h
  | updateCandidateSignals sig now =>
      rw [applyOp, updateCandidateSignalsState_shouldWrapUp]; exact h
  | setPhase ph now => rw [applyOp, setPhaseState_shouldWrapUp]; exact h
  | initializeCodingState prob lang now => rw [applyOp]; exact h
  | updateCodingState p now =>
      rw [applyOp]
      cases hr : updateCodingStateState s p now with
      | none => exact h
      | some r =>
          rw [updateCodingStateState_shouldWrapUp s p now r.1 r.2 (by rw [hr])]; exact h
  | recordCodeSubmission sid c l r now =>
      rw [applyOp]
      cases hr : recordCodeSubmissionState s sid c l r now with
      | none => exact h
      | some rr =>
          rw [recordCodeSubmissionState_shouldWrapUp s sid c l r now rr.1 rr.2 (by rw [hr])]
          exact h
  | updateElapsedTime now => rw [applyOp]; exact h
  | completeInterview now => rw [applyOp]; exact h

theorem replaceQuestion_length (l : List QuestionState) (qid : String) (q' : QuestionState) :
    (replaceQuestion l qid q').length = l.length := by
  induction l with
  | nil => rfl
  | cons q qs ih =>
      rw [replaceQuestion]
      split
      · rfl
      · simpa using ih

theorem recordAnswerState_totalQuestions (s : InterviewState)
    (p : RecordAnswerPayload) (now : Int) (q' : QuestionState) (s' : InterviewState)
    (hr : recordAnswerState s p now = some (q', s')) :
    s'.performance.totalQuestions = s.performance.totalQuestions := by
  simp only [recordAnswerState] at hr
  cases hfind : s.questions.find? (fun q => q.id == p.questionId) with
  | none => rw [hfind] at hr; exact absurd hr (by simp)
  | some q0 =>
      rw [hfind] at hr
      simp only [Option.some.injEq, Prod.mk.injEq] at hr
      obtain ⟨-, hs⟩ := hr
      subst hs
      rw [show ∀ t : InterviewState, (checkWrapUpConditions t).performance.totalQuestions =
          t.performance.totalQuestions from fun t => by
          rw [checkWrapUpConditions_performance]]
      rw [show ∀ (t : InterviewState) (q : QuestionState),
          (updateTopicCoverageScore t q).performance = t.performance from
          updateTopicCoverageScore_performance]
      rw [updatePerformanceMetrics_totalQuestions]

theorem recordAnswerState_questions_length (s : InterviewState)
    (p : RecordAnswerPayload) (now : Int) (q' : QuestionState) (s' : InterviewState)
    (hr : recordAnswerState s p now = some (q', s')) :
    s'.questions.length = s.questions.length := by
  simp only [recordAnswerState] at hr
  cases hfind : s.questions.find? (fun q => q.id == p.questionId) with
  | none => rw [hfind] at hr; exact absurd hr (by simp)
  | some q0 =>
      rw [hfind] at hr
      simp only [Option.some.injEq, Prod.mk.injEq] at hr
      obtain ⟨-, hs⟩ := hr
      subst hs
      rw [checkWrapUpConditions_questions, updateTopicCoverageScore_questions,
        updatePerformanceMetrics_questions]
      exact replaceQuestion_length _ _ _

theorem applyOp_counter_invariant (op : StateOp) (s : InterviewState)
    (h : s.performance.totalQuestions = s.questions.length) :
    (applyOp op s).performance.totalQuestions = (applyOp op s).questions.length := by
  cases op with
  | recordQuestion qid p now =>
      rw [applyOp, recordQuestionState_totalQuestions, recordQuestionState_questions,
        List.length_append, h]
      rfl
  | recordAnswer p now =>
      rw [applyOp]
      cases hr : recordAnswerState s p now with
      | none => exact h
      | some r =>
          rw [recordAnswerState_totalQuestions s p now r.1 r.2 (by rw [hr]),
            recordAnswerState_questions_length s p now r.1 r.2 (by rw [hr])]
          exact h
  | updateCandidateSignals sig now =>
      rw [applyOp, updateCandidateSignalsState_totalQuestions,
        updateCandidateSignalsState_questions]
      exact h
  | setPhase ph now => rw [applyOp]; exact h
  | initializeCodingState prob lang now => rw [applyOp]; exact h
  | updateCodingState p now =>
      rw [applyOp]
      cases hr : updateCodingStateState s p now with
      | none => exact h
      | some r =>
          rw [updateCodingStateState_performance s p now r.1 r.2 (by rw [hr]),
            updateCodingStateState_questions s p now r.1 r.2 (by rw [hr])]
          exact h
  | recordCodeSubmission sid c l r now =>
      rw [applyOp]
      cases hr : recordCodeSubmissionState s sid c l r now with
      | none => exact h
      | some rr =>
          rw [recordCodeSubmissionState_performance s sid c l r now rr.1 rr.2 (by rw [hr]),
            recordCodeSubmissionState_questions s sid c l r now rr.1 rr.2 (by rw [hr])]
          exact h
  | updateElapsedTime now => rw [applyOp]; exact h
  | completeInterview now => rw [applyOp]; exact h

theorem recordAnswerState_some_eq (s : InterviewState) (p : RecordAnswerPayload)
    (now : Int) (q' : QuestionState) (s' : InterviewState)
    (hr : recordAnswerState s p now = some (q', s')) :
    ∃ q0, s.questions.find? (fun q => q.id == p.questionId) = some q0 ∧
      q' = answeredQuestion q0 p now ∧
      s' = checkWrapUpConditions (updateTopicCoverageScore
        (updatePerformanceMetrics
          { s with
              questions := replaceQuestion s.questions p.questionId (answeredQuestion q0 p now)
              lastActivityAt := now
              updatedAt := now }
          (answeredQuestion q0 p now))
        (answeredQuestion q0 p now)) := by
  simp only [recordAnswerState] at hr
  cases hfind : s.questions.find? (fun q => q.id == p.questionId) with
  | none => rw [hfind] at hr; exact absurd hr (by simp)
  | some q0 =>
      rw [hfind] at hr
      simp only [Option.some.injEq, Prod.mk.injEq] at hr
      exact ⟨q0, rfl, hr.1.symm, hr.2.symm⟩

theorem updatePerformanceMetrics_recentScores (s : InterviewState) (q : QuestionState) :
    (updatePerformanceMetrics s q).performance.recentScores =
      (match q.score with
       | some sc =>
           if (s.performance.recentScores ++ [sc]).length > 5 then
             (s.performance.recentScores ++ [sc]).tail
           else s.performance.recentScores ++ [sc]
       | none => s.performance.recentScores) := by
  simp only [updatePerformanceMetrics]
  rw [adjustSuggestedDifficulty_recentScores, updateStrengthsAndWeaknesses_recentScores]

theorem updatePerformanceMetrics_scoreTrend (s : InterviewState) (q : QuestionState) :
    (updatePerformanceMetrics s q).performance.scoreTrend =
      (let w := (updatePerformanceMetrics s q).performance.recentScores
       if w.length ≥ 3 then
         let recent := w.drop (w.length - 3)
         let avg := recent.sum / (recent.length : Rat)
         let prevAvg := (w.take (w.length - 3)).sum / ((max 1 (w.length - 3) : Nat) : Rat)
         if avg > prevAvg + 1 then ScoreTrend.improving
         else if avg < prevAvg - 1 then ScoreTrend.declining
         else ScoreTrend.stable
       else s.performance.scoreTrend) := by
  simp only [updatePerformanceMetrics, adjustSuggestedDifficulty_scoreTrend,
    updateStrengthsAndWeaknesses_scoreTrend, adjustSuggestedDifficulty_recentScores,
    updateStrengthsAndWeaknesses_recentScores]

theorem updatePerformanceMetrics_suggestedDifficulty (s : InterviewState) (q : QuestionState) :
    (updatePerformanceMetrics s q).performance.suggestedDifficulty =
      (if (updatePerformanceMetrics s q).performance.averageScore ≥ 8 ∧
          (updatePerformanceMetrics s q).performance.scoreTrend ≠ .declining then
        Difficulty.HARD
      else if (updatePerformanceMetrics s q).performance.averageScore ≥ 6 ∨
          (updatePerformanceMetrics s q).performance.scoreTrend = .improving then
        Difficulty.MEDIUM
      else if (updatePerformanceMetrics s q).performance.averageScore < 5 ∧
          (updatePerformanceMetrics s q).performance.scoreTrend = .declining then
        Difficulty.EASY
      else Difficulty.MEDIUM) := by
  simp only [updatePerformanceMetrics, adjustSuggestedDifficulty_suggestedDifficulty,
    adjustSuggestedDifficulty_averageScore, adjustSuggestedDifficulty_scoreTrend]

theorem storeGet_map_set (store : StateStore) (interviewId : String) (s : InterviewState)
    (h : (store.find? (fun p => p.1 == interviewId)).isSome = true) :
    storeGet (store.map (fun p => if p.1 == interviewId then (interviewId, s) else p))
      interviewId = some s := by
  induction store with
  | nil => simp at h
  | cons p rest ih =>
      by_cases hp : (p.1 == interviewId) = true
      · simp only [List.map_cons, if_pos hp, storeGet]
        rw [List.find?_cons]
        simp
      · have hp' : (p.1 == interviewId) = false := by simpa using hp
        simp only [List.map_cons, if_neg hp, storeGet]
        rw [List.find?_cons]
        simp only [hp']
        have h' : (rest.find? (fun x => x.1 == interviewId)).isSome = true := by
          rw [List.find?_cons] at h
          simpa [hp'] using h
        have hrest := ih h'
        simp only [storeGet] at hrest
        simpa using hrest

theorem storeGet_append_single (store : StateStore) (interviewId : String)
    (s : InterviewState) :
    storeGet (store ++ [(interviewId, s)]) interviewId =
      ((storeGet store interviewId).orElse (fun _ => some s)) := by
  induction store with
  | nil =>
      simp only [List.nil_append, storeGet]
      rw [List.find?_cons]
      simp [Option.orElse]
  | cons p rest ih =>
      by_cases hp : (p.1 == interviewId) = true
      · simp only [storeGet, List.cons_append]
        rw [List.find?_cons, List.find?_cons]
        simp [hp, Option.orElse]
      · have hp' : (p.1 == interviewId) = false := by simpa using hp
        simp only [storeGet, List.cons_append] at ih ⊢
        rw [List.find?_cons, List.find?_cons]
        simpa [hp'] using ih

theorem storeGet_storeSet_same (store : StateStore) (interviewId : String)
    (s : InterviewState) :
    storeGet (storeSet store interviewId s) interviewId = some s := by
  rw [storeSet]
  by_cases h : (store.find? (fun p => p.1 == interviewId)).isSome = true
  · rw [if_pos h]
    exact storeGet_map_set store interviewId s h
  · rw [if_neg h, storeGet_append_single]
    have hn : storeGet store interviewId = none := by
      simp only [storeGet]
      cases hf : store.find? (fun p => p.1 == interviewId) with
      | none => rfl
      | some p => rw [hf] at h; simp at h
    rw [hn]
    rfl

theorem applyOps_invariant (P : InterviewState → Prop)
    (hstep : ∀ op s, P s → P (applyOp op s)) :
    ∀ (ops : List StateOp) (s : InterviewState), P s → P (applyOps ops s) := by
  intro ops
  induction ops with
  | nil => intro s h; simpa [applyOps] using h
  | cons op rest ih =>
      intro s h
      have hsteps : applyOps (op :: rest) s = applyOps rest (applyOp op s) := by
        simp [applyOps]
      rw [hsteps]
      exact ih _ (hstep op s h)

/-! ## Claim C3: `shouldWrapUp` is monotone (never reset to false) -/

/-- C3: once an interview state has `shouldWrapUp = true`, applying any
sequence of state operations (recordQuestion, recordAnswer with any score,
updateCandidateSignals, initializeCodingState, updateCodingState,
recordCodeSubmission, setPhase, updateElapsedTime, completeInterview) never
turns it back to `false`. -/
theorem shouldWrapUp_monotone (s : InterviewState) (ops : List StateOp)
    (h : s.shouldWrapUp = true) : (applyOps ops s).shouldWrapUp = true :=
  applyOps_invariant (fun t => t.shouldWrapUp = true) applyOp_shouldWrapUp_mono ops s h

/-- Witness for C3 at a concrete wrapped-up state and operation sequence. -/
theorem shouldWrapUp_monotone_witness :
    (applyOps c3Ops c3State).shouldWrapUp = true :=
  shouldWrapUp_monotone c3State c3Ops rfl

/-! ## Claim C10: `performance.totalQuestions` equals the question-log length -/

/-- C10: in every state reachable from `createInterviewState` by any
sequence of state operations, the `totalQuestions` performance counter (the
`questionsAsked` figure used by the snapshot and the wrap-up check) equals
the length of the question log: both start at zero and `recordQuestion` is
the only operation changing either, appending one question while
incrementing the counter. -/
theorem totalQuestions_eq_question_log_length (params : CreateStateParams)
    (stateId : String) (now : Int) (ops : List StateOp) :
    (applyOps ops (mkInterviewState params stateId now)).performance.totalQuestions =
      (applyOps ops (mkInterviewState params stateId now)).questions.length :=
  applyOps_invariant
    (fun t => t.performance.totalQuestions = t.questions.length)
    applyOp_counter_invariant ops (mkInterviewState params stateId now) rfl

/-! ## Further helper lemmas for the remaining claims -/

theorem recordQuestionState_phase (s : InterviewState) (qid : String)
    (p : AskQuestionPayload) (now : Int) :
    (recordQuestionState s qid p now).2.phase = s.phase := rfl

theorem setPhaseState_phase (s : InterviewState) (ph : InterviewPhase) (now : Int) :
    (setPhaseState s ph now).phase = ph := rfl

theorem checkWrapUp_of_false (t : InterviewState) (h : t.shouldWrapUp = false) :
    (checkWrapUpConditions t).shouldWrapUp = true ↔
      ((t.elapsedSeconds : Rat) / 60 ≥ t.estimatedDurationMinutes * (9 / 10) ∨
        (t.performance.totalQuestions ≥ getMinQuestionsForRound t.roundType ∧
          t.performance.averageScore ≥ 5)) := by
  rw [checkWrapUpConditions_shouldWrapUp, h]
  simp

theorem recordAnswer_pipeline_questions (t : InterviewState) (a b : QuestionState) :
    (checkWrapUpConditions (updateTopicCoverageScore
      (updatePerformanceMetrics t a) b)).questions = t.questions := by
  rw [checkWrapUpConditions_questions, updateTopicCoverageScore_questions,
    updatePerformanceMetrics_questions]

theorem scoredScores_pipeline (t : InterviewState) (a b : QuestionState) :
    scoredScores (checkWrapUpConditions (updateTopicCoverageScore
      (updatePerformanceMetrics t a) b)) = scoredScores t := by
  unfold scoredScores
  rw [recordAnswer_pipeline_questions]

section ClaimTheorems

attribute [local semireducible] Rat.mul Rat.inv Rat.add Rat.sub

/-! ## Claim C8: missing lookups are silent no-ops -/

/-- C8: `recordAnswer` with a questionId matching no question in the log
returns null and leaves the store — hence the entire interview state —
unchanged; and every state operation invoked with an interview id that has
no stored state returns null/void with the store unchanged (the embedding is
total, so no case throws). -/
theorem missing_lookups_are_noops :
    (∀ (store : StateStore) (interviewId : String) (s : InterviewState)
        (p : RecordAnswerPayload) (now : Int),
      storeGet store interviewId = some s →
      s.questions.find? (fun q => q.id == p.questionId) = none →
      recordAnswer store interviewId p now = (none, store)) ∧
    (∀ (store : StateStore) (interviewId : String),
      storeGet store interviewId = none →
      ∀ (qid sid code lang : String) (ask : AskQuestionPayload)
        (ra : RecordAnswerPayload) (sig : CandidateSignals) (prob : CodingProblem)
        (upd : UpdateCodingStatePayload) (res : CodeExecutionResult)
        (ph : InterviewPhase) (now : Int),
      getInterviewState store interviewId = none ∧
      setPhase store interviewId ph now = (none, store) ∧
      recordQuestion store interviewId qid ask now = (none, store) ∧
      recordAnswer store interviewId ra now = (none, store) ∧
      updateCandidateSignals store interviewId sig now = (none, store) ∧
      initializeCodingState store interviewId prob lang now = (none, store) ∧
      updateCodingState store interviewId upd now = (none, store) ∧
      recordCodeSubmission store interviewId sid code lang res now = (none, store) ∧
      getStateSnapshot store interviewId = none ∧
      updateElapsedTime store interviewId now = store ∧
      completeInterview store interviewId now = (none, store)) := by
  constructor
  · intro store interviewId s p now hs hfind
    simp [recordAnswer, hs, recordAnswerState, hfind]
  · intro store interviewId h qid sid code lang ask ra sig prob upd res ph now
    refine ⟨?_, ?_, ?_, ?_, ?_, ?_, ?_, ?_, ?_, ?_, ?_⟩ <;>
      simp [getInterviewState, setPhase, recordQuestion, recordAnswer,
        updateCandidateSignals, initializeCodingState, updateCodingState,
        recordCodeSubmission, getStateSnapshot, updateElapsedTime,
        completeInterview, h]

/-- Witness for C8: a store with one interview but a non-matching question
id, and the empty store with an unknown id. -/
theorem missing_lookups_are_noops_witness :
    recordAnswer c8Store "int1" (mkAns "zzz" (some 5)) 99 = (none, c8Store) ∧
    recordAnswer [] "ghost" (mkAns "q" none) 0 = (none, []) :=
  ⟨missing_lookups_are_noops.1 c8Store "int1" (mkInterviewState demoParams "st1" 0)
      (mkAns "zzz" (some 5)) 99 (by decide) (by decide),
    (missing_lookups_are_noops.2 [] "ghost" (by decide) "q" "s" "c" "l" (mkAsk "A")
      (mkAns "q" none) {} c8Problem {} { success := true } .wrap_up 0).2.2.2.1⟩

/-! ## Claim C9: snapshot nullability and topic partition -/

/-- C9: `getStateSnapshot` returns null for an unknown interview id; for a
known id it is the pure projection of the stored state (the store is not
written), and `topicsCovered` / `topicsRemaining` partition the nine topic
categories — every category belongs to exactly one of the two lists. -/
theorem snapshot_partitions_topics :
    (∀ (store : StateStore) (interviewId : String),
      storeGet store interviewId = none → getStateSnapshot store interviewId = none) ∧
    (∀ (store : StateStore) (interviewId : String) (s : InterviewState),
      storeGet store interviewId = some s →
      getStateSnapshot store interviewId = some (stateSnapshot s) ∧
      ∀ c : QuestionCategory,
        (c ∈ (stateSnapshot s).topicsCovered ∧ c ∉ (stateSnapshot s).topicsRemaining) ∨
        (c ∉ (stateSnapshot s).topicsCovered ∧ c ∈ (stateSnapshot s).topicsRemaining)) := by
  constructor
  · intro store interviewId h
    simp [getStateSnapshot, h]
  · intro store interviewId s hs
    refine ⟨by simp [getStateSnapshot, hs], ?_⟩
    intro c
    cases hcov : (s.topicCoverage.get c).covered with
    | true =>
        left
        constructor <;> simp [stateSnapshot, List.mem_filter, mem_allCategories, hcov]
    | false =>
        right
        constructor <;> simp [stateSnapshot, List.mem_filter, mem_allCategories, hcov]

/-- Witness for C9 at the empty store and at a freshly created interview. -/
theorem snapshot_partitions_topics_witness :
    getStateSnapshot [] "nobody" = none ∧
    getStateSnapshot c9Store "int1" =
      some (stateSnapshot (mkInterviewState demoParams "st9" 0)) :=
  ⟨snapshot_partitions_topics.1 [] "nobody" (by decide),
    (snapshot_partitions_topics.2 c9Store "int1"
      (mkInterviewState demoParams "st9" 0) (by decide)).1⟩

/-! ## Claim C7: introduction → main-questions promotion -/

/-- C7 counterexample: with one question asked and none answered, the
interview is in `introduction` before `getNextQuestion` and in
`main-questions` after it with `answeredQuestions` still 0 — the promotion
happens without any answered question, contradicting the claim that it
requires one. -/
theorem getNextQuestion_promotion_counterexample :
    (storeGet c7Store2 "int1").map (fun t => (t.phase, t.performance.answeredQuestions)) =
      some (InterviewPhase.introduction, 0) ∧
    (storeGet c7Store3 "int1").map (fun t => (t.phase, t.performance.answeredQuestions)) =
      some (InterviewPhase.main_questions, 0) := by
  constructor
  · decide
  · decide

/-- C7 (amended): inside `getNextQuestion`, an interview in the
`introduction` phase is promoted to `main-questions` exactly when at least
one question has already been ASKED (`performance.totalQuestions > 0`); the
check does not consult answered questions. -/
theorem getNextQuestion_promotes_on_asked (store : StateStore) (interviewId : String)
    (s : InterviewState) (gen : NextQuestionResponse) (qid : String) (now : Int)
    (hs : storeGet store interviewId = some s) (hph : s.phase = .introduction) :
    (storeGet (getNextQuestion store interviewId gen qid now).2 interviewId).map
        (fun t => t.phase) =
      some (if 0 < s.performance.totalQuestions then InterviewPhase.main_questions
        else InterviewPhase.introduction) := by
  simp only [getNextQuestion, hs]
  by_cases hq : 0 < s.performance.totalQuestions
  · rw [if_pos ⟨hph, hq⟩, if_pos hq]
    simp only [setPhase, hs, recordQuestion, storeGet_storeSet_same]
    simp [recordQuestionState_phase, setPhaseState_phase]
  · rw [if_neg (fun hcond => hq hcond.2), if_neg hq]
    simp only [recordQuestion, hs, storeGet_storeSet_same]
    simp [recordQuestionState_phase, hph]

/-- Witness for C7's amended statement at the concrete one-question store. -/
theorem getNextQuestion_promotes_on_asked_witness :
    (storeGet (getNextQuestion c7Store2 "int1" c7Gen "q2" 0).2 "int1").map
        (fun t => t.phase) = some InterviewPhase.main_questions := by
  have h := getNextQuestion_promotes_on_asked c7Store2 "int1" c7State c7Gen "q2" 0
    (by decide) (by decide)
  rw [h]
  decide

/-! ## Claim C5: recordQuestion effects and depth upgrade -/

/-- C5 counterexample: a follow-up asked when the category had exactly ONE
prior question already gets depth `deep` (counter after increment is 2),
whereas the claim — requiring at least 2 questions before the call —
predicts `moderate`. -/
theorem recordQuestion_depth_counterexample :
    (c5Final.topicCoverage.get .behavioral).questionsAsked = 2 ∧
    (c5Final.topicCoverage.get .behavioral).depth = TopicDepth.deep ∧
    TopicDepth.deep ≠ TopicDepth.moderate := by
  refine ⟨by decide, by decide, by decide⟩

/-- C5 (amended): `recordQuestion` appends the question to the log, points
`currentQuestionIndex` at it, increments the category's counter and marks it
covered; the depth becomes `deep` exactly when the question is a follow-up
and the category already had at least ONE question before the call (so the
counter including this question reaches 2), `moderate` when the counter
reaches 2 without the follow-up flag, and otherwise keeps its prior depth
(`shallow` for a fresh category). -/
theorem recordQuestion_effects (s : InterviewState) (qid : String)
    (p : AskQuestionPayload) (now : Int) :
    (recordQuestionState s qid p now).2.questions =
        s.questions ++ [(recordQuestionState s qid p now).1] ∧
    (recordQuestionState s qid p now).2.currentQuestionIndex =
        ((recordQuestionState s qid p now).2.questions.length : Int) - 1 ∧
    ((recordQuestionState s qid p now).2.topicCoverage.get p.category).questionsAsked =
        (s.topicCoverage.get p.category).questionsAsked + 1 ∧
    ((recordQuestionState s qid p now).2.topicCoverage.get p.category).covered = true ∧
    ((recordQuestionState s qid p now).2.topicCoverage.get p.category).depth =
        (if p.isFollowUp.getD false ∧ 1 ≤ (s.topicCoverage.get p.category).questionsAsked
          then TopicDepth.deep
        else if 1 ≤ (s.topicCoverage.get p.category).questionsAsked then
          TopicDepth.moderate
        else (s.topicCoverage.get p.category).depth) := by
  refine ⟨rfl, rfl, ?_, ?_, ?_⟩
  · simp only [recordQuestionState]
    rw [TopicCoverageMap.get_set_same]
    split
    · rfl
    · split <;> rfl
  · simp only [recordQuestionState]
    rw [TopicCoverageMap.get_set_same]
    split
    · rfl
    · split <;> rfl
  · simp only [recordQuestionState]
    rw [TopicCoverageMap.get_set_same]
    by_cases hf : p.isFollowUp.getD false = true
    · by_cases hn : 1 ≤ (s.topicCoverage.get p.category).questionsAsked
      · have h2 : 2 ≤ (s.topicCoverage.get p.category).questionsAsked + 1 := by omega
        simp [hf, hn, h2]
      · have h2 : ¬2 ≤ (s.topicCoverage.get p.category).questionsAsked + 1 := by omega
        simp [hf, hn, h2]
    · by_cases hn : 1 ≤ (s.topicCoverage.get p.category).questionsAsked
      · have h2 : 2 ≤ (s.topicCoverage.get p.category).questionsAsked + 1 := by omega
        simp [hf, hn, h2]
      · have h2 : ¬2 ≤ (s.topicCoverage.get p.category).questionsAsked + 1 := by omega
        simp [hf, hn, h2]

/-! ## Claim C4: difficulty adaptation rule table -/

/-- C4: after a successful `recordAnswer`, the suggested difficulty follows
the first-match rule table on the updated average and trend (average ≥8 and
trend≠declining → HARD; average ≥6 or trend=improving → MEDIUM; average <5
and trend=declining → EASY; else MEDIUM); in particular average 9 with
stable trend gives HARD, average 4 with declining trend gives EASY, and
average 6.5 with any trend gives MEDIUM. -/
theorem suggestedDifficulty_rule (s : InterviewState) (p : RecordAnswerPayload)
    (now : Int) (q' : QuestionState) (s' : InterviewState)
    (hr : recordAnswerState s p now = some (q', s')) :
    (s'.performance.suggestedDifficulty =
      (if s'.performance.averageScore ≥ 8 ∧ s'.performance.scoreTrend ≠ .declining then
        Difficulty.HARD
      else if s'.performance.averageScore ≥ 6 ∨ s'.performance.scoreTrend = .improving then
        Difficulty.MEDIUM
      else if s'.performance.averageScore < 5 ∧ s'.performance.scoreTrend = .declining then
        Difficulty.EASY
      else Difficulty.MEDIUM)) ∧
    (adjustSuggestedDifficulty c4Hard).performance.suggestedDifficulty = .HARD ∧
    (adjustSuggestedDifficulty c4Easy).performance.suggestedDifficulty = .EASY ∧
    ∀ t : ScoreTrend,
      (adjustSuggestedDifficulty (c4Mid t)).performance.suggestedDifficulty = .MEDIUM := by
  refine ⟨?_, by decide, by decide, by intro t; cases t <;> decide⟩
  obtain ⟨q0, -, -, hsEq⟩ := recordAnswerState_some_eq s p now q' s' hr
  subst hsEq
  rw [checkWrapUpConditions_performance, updateTopicCoverageScore_performance]
  exact updatePerformanceMetrics_suggestedDifficulty _ _

/-- Witness for C4: the first answer scored 9 yields suggested difficulty
HARD through the rule table. -/
theorem suggestedDifficulty_rule_witness :
    c4wRes.2.performance.suggestedDifficulty = Difficulty.HARD := by
  have h := (suggestedDifficulty_rule c4wState (mkAns "q1" (some 9)) 0 c4wRes.1 c4wRes.2
    (by decide)).1
  rw [h]
  decide

/-! ## Claim C2: wrap-up thresholds -/

/-- C2: after a successful `recordAnswer` on an interview whose wrap-up flag
is still false, `shouldWrapUp` ends true exactly when elapsed minutes reach
90% of the estimated duration, or the questions-asked counter reaches the
round-specific minimum (behavioral 4, technical 5, coding 1, system-design
2, hr 3, default 4) with average score at least 5; in particular a
behavioral interview with 4 questions all scored 5 wraps up, while 3
questions scored 9 does not. -/
theorem wrapUp_iff_thresholds (s : InterviewState) (p : RecordAnswerPayload)
    (now : Int) (q' : QuestionState) (s' : InterviewState)
    (h0 : s.shouldWrapUp = false)
    (hr : recordAnswerState s p now = some (q', s')) :
    (s'.shouldWrapUp = true ↔
      ((s'.elapsedSeconds : Rat) / 60 ≥ s'.estimatedDurationMinutes * (9 / 10) ∨
        (s'.performance.totalQuestions ≥ getMinQuestionsForRound s'.roundType ∧
          s'.performance.averageScore ≥ 5))) ∧
    (applyOps c2aOps demoState0).shouldWrapUp = true ∧
    (applyOps c2bOps demoState0).shouldWrapUp = false := by
  refine ⟨?_, by decide, by decide⟩
  obtain ⟨q0, -, -, hsEq⟩ := recordAnswerState_some_eq s p now q' s' hr
  subst hsEq
  rw [checkWrapUpConditions_elapsedSeconds, checkWrapUpConditions_estimatedDurationMinutes,
    checkWrapUpConditions_performance, checkWrapUpConditions_roundType]
  apply checkWrapUp_of_false
  rw [updateTopicCoverageScore_shouldWrapUp, updatePerformanceMetrics_shouldWrapUp]
  exact h0

/-- Witness for C2 at the concrete behavioral scenario (4 × score 5 wraps
up). -/
theorem wrapUp_iff_thresholds_witness :
    (applyOps c2aOps demoState0).shouldWrapUp = true :=
  (wrapUp_iff_thresholds c2wState (mkAns "q1" (some 5)) 0 c2wRes.1 c2wRes.2
    (by decide) (by decide)).2.1

/-! ## Claim C1: the recomputed average -/

/-- C1 counterexample: an 8-scored answer followed by a score-less answer
leaves `averageScore` at 8/2 = 4, while the arithmetic mean of the scored
questions in the log is 8/1 = 8 — the stored average is NOT the mean of the
scored questions once a `recordAnswer` call carries no score. -/
theorem averageScore_counterexample :
    c1Final.performance.averageScore = 4 ∧
    (scoredScores c1Final).sum / ((scoredScores c1Final).length : Rat) = 8 ∧
    (4 : Rat) ≠ 8 := by
  refine ⟨by decide, by decide, by decide⟩

/-- C1 (amended): after every successful `recordAnswer`, the recomputed
average equals the sum of the scores of all scored questions in the log
divided by the `answeredQuestions` counter — which counts successful
`recordAnswer` calls, including unscored ones and re-answers — not by the
count of scored questions; the two coincide only when every call carries a
score for a distinct question. -/
theorem averageScore_recompute (s : InterviewState) (p : RecordAnswerPayload)
    (now : Int) (q' : QuestionState) (s' : InterviewState)
    (hr : recordAnswerState s p now = some (q', s')) :
    s'.performance.answeredQuestions = s.performance.answeredQuestions + 1 ∧
    s'.performance.averageScore =
      (scoredScores s').sum / ((s.performance.answeredQuestions + 1 : Nat) : Rat) := by
  obtain ⟨q0, -, -, hsEq⟩ := recordAnswerState_some_eq s p now q' s' hr
  subst hsEq
  constructor
  · rw [checkWrapUpConditions_performance, updateTopicCoverageScore_performance,
      updatePerformanceMetrics_answeredQuestions]
  · rw [checkWrapUpConditions_performance, updateTopicCoverageScore_performance,
      updatePerformanceMetrics_averageScore, scoredScores_pipeline]

/-- Witness for C1's amended statement: a single scored answer gives counter
1 and average 8. -/
theorem averageScore_recompute_witness :
    c1wRes.2.performance.answeredQuestions = 1 ∧
    c1wRes.2.performance.averageScore = 8 := by
  have h := averageScore_recompute c1wState (mkAns "q1" (some 8)) 0 c1wRes.1 c1wRes.2
    (by decide)
  constructor
  · rw [h.1]; decide
  · rw [h.2]; decide

/-! ## Claim C6: trend classification -/

/-- C6: after a successful `recordAnswer`, with fewer than 3 scores in the
rolling window the trend keeps its prior value; with at least 3 scores, the
mean of the last 3 window scores is compared to the mean of the window
scores before those 3 (an empty set when the window holds exactly 3 scores,
yielding prior mean 0 through the `max 1` denominator): more than 1 point
above → improving, more than 1 point below → declining, else stable. -/
theorem scoreTrend_update (s : InterviewState) (p : RecordAnswerPayload)
    (now : Int) (q' : QuestionState) (s' : InterviewState)
    (hr : recordAnswerState s p now = some (q', s')) :
    s'.performance.scoreTrend =
      (let w := s'.performance.recentScores
       if w.length ≥ 3 then
         let recent := w.drop (w.length - 3)
         let avg := recent.sum / (recent.length : Rat)
         let prevAvg := (w.take (w.length - 3)).sum / ((max 1 (w.length - 3) : Nat) : Rat)
         if avg > prevAvg + 1 then ScoreTrend.improving
         else if avg < prevAvg - 1 then ScoreTrend.declining
         else ScoreTrend.stable
       else s.performance.scoreTrend) := by
  obtain ⟨q0, -, -, hsEq⟩ := recordAnswerState_some_eq s p now q' s' hr
  subst hsEq
  rw [checkWrapUpConditions_performance, updateTopicCoverageScore_performance]
  exact updatePerformanceMetrics_scoreTrend _ _

/-- Witness for C6: a third score of 5 fills the window to [5, 5, 5]; the
last-3 mean 5 exceeds the empty prior mean 0 by more than 1, so the trend
becomes improving. -/
theorem scoreTrend_update_witness :
    c6wRes.2.performance.scoreTrend = ScoreTrend.improving := by
  have h := scoreTrend_update c6wState (mkAns "q3" (some 5)) 0 c6wRes.1 c6wRes.2
    (by decide)
  rw [h]
  decide

end ClaimTheorems

end Hireability
